import Mathlib

/-!
Verification development for the anki-mcp-server request adapter (src/index.ts).

The adapter's pure logic is embedded shallowly:

* the content sanitizer cleanWithRegex is modelled character by character;
  each JavaScript regex replace is a left-to-right scanner with a fuel
  argument (fuel is the length of the input, and every scanner step consumes
  at least one character, so the fuel never runs out);
* the query translator formatQuery is a direct transcription;
* tool handlers are pure functions over an AnkiClient record (the
  yanki-connect collection-service collaborator) that also return the list of
  service calls they performed, in order, so that claims about side effects
  ("zero calls before the confirmation check") become claims about that list;
* loosely-typed tool arguments are Option values, and JavaScript truthiness
  is modelled explicitly: a number argument is falsy exactly when it is 0, a
  string argument exactly when it is empty, an absent argument always.

String literals write the apostrophe character as the escape \x27.
-/

/-! ## Character-level utilities shared by the sanitizer -/

/-- The whitespace characters recognised by the model of
JavaScript String.prototype.trim (the common ASCII whitespace). -/
def isWsChar (c : Char) : Bool :=
  decide (c = ' ' ∨ c = '\t' ∨ c = '\n' ∨ c = '\r' ∨ c = '\x0B' ∨ c = '\x0C')

/-- Literal (case-sensitive) pattern match at the head of a list. -/
def litPfx : List Char → List Char → Bool
  | [], _ => true
  | _ :: _, [] => false
  | p :: ps, c :: cs => if p = c then litPfx ps cs else false

/-- Case-insensitive single-character match: the pattern character p is
always a lowercase letter or a symbol; it matches c when they are equal, or
when p is a lowercase letter and c is its uppercase form. -/
def ciChEq (p c : Char) : Bool :=
  if p = c then true
  else if 97 ≤ p.toNat ∧ p.toNat ≤ 122 ∧ c.toNat + 32 = p.toNat then true
  else false

/-- Case-insensitive pattern match at the head of a list. -/
def ciHas : List Char → List Char → Bool
  | [], _ => true
  | _ :: _, [] => false
  | p :: ps, c :: cs => ciChEq p c && ciHas ps cs

/-- Split a character list at a separator, JavaScript String.split style:
the empty list yields one empty piece. -/
def splitCh (sep : Char) : List Char → List (List Char)
  | [] => [[]]
  | c :: cs =>
    if c = sep then [] :: splitCh sep cs
    else
      match splitCh sep cs with
      | [] => [[c]]
      | l :: ls => (c :: l) :: ls

/-- Join pieces with a newline, JavaScript Array.join("\n") style. -/
def joinNl : List (List Char) → List Char
  | [] => []
  | [l] => l
  | l :: ls => l ++ '\n' :: joinNl ls

/-- Remove trailing whitespace. -/
def trimEnd (l : List Char) : List Char :=
  (l.reverse.dropWhile isWsChar).reverse

/-- JavaScript String.prototype.trim: remove leading and trailing
whitespace. -/
def trimBoth (l : List Char) : List Char :=
  trimEnd (l.dropWhile isWsChar)

/-- The final whitespace-normalisation stage of the sanitizer:
split on newlines, trim each line, drop empty lines, rejoin. -/
def normalizeLines (l : List Char) : List Char :=
  joinNl (((splitCh '\n' l).map trimBoth).filter (fun p => !p.isEmpty))

/-! ## The regex scanners of the sanitizer -/

/-- Consume characters up to and including the first unconsumed greater-than
sign; models the regex fragment consisting of a non-greater-than class
repeated and then a literal greater-than. -/
def scanGt : List Char → Option (List Char)
  | [] => none
  | c :: cs => if c = '>' then some cs else scanGt cs

/-- Consume characters up to and including the first closing square
bracket. -/
def scanRb : List Char → Option (List Char)
  | [] => none
  | c :: cs => if c = ']' then some cs else scanRb cs

/-- Match the tag regex (a less-than sign, one or more characters other than
greater-than, a greater-than sign) at the head of the list; on success
return the rest of the input after the match. -/
def tagMatch : List Char → Option (List Char)
  | c :: d :: rest =>
    if c = '<' then (if d = '>' then none else scanGt (d :: rest)) else none
  | _ => none

/-- Match the div-opening regex (literal "<div", any characters other than
greater-than, then a greater-than sign) at the head of the list. -/
def divMatch (l : List Char) : Option (List Char) :=
  if litPfx ['<', 'd', 'i', 'v'] l then scanGt (l.drop 4) else none

/-- The literal pattern "[anki:play:". -/
def playPat : List Char :=
  ['[', 'a', 'n', 'k', 'i', ':', 'p', 'l', 'a', 'y', ':']

/-- Match the play-directive regex (literal "[anki:play:", one or more
characters other than a closing bracket, then a closing bracket). -/
def playMatch (l : List Char) : Option (List Char) :=
  if litPfx playPat l then
    match l.drop 11 with
    | [] => none
    | c :: cs => if c = ']' then none else scanRb (c :: cs)
  else none

/-- The case-insensitive opening pattern "<style". -/
def styleOpenPat : List Char := ['<', 's', 't', 'y', 'l', 'e']

/-- The case-insensitive closing pattern "</style>". -/
def styleClosePat : List Char := ['<', '/', 's', 't', 'y', 'l', 'e', '>']

/-- Find the first case-insensitive occurrence of "</style>" and return the
rest of the input after it; models the lazy any-character repetition
followed by the closing literal. -/
def styleClose : List Char → Option (List Char)
  | [] => none
  | c :: cs =>
    if ciHas styleClosePat (c :: cs) then some (cs.drop 7)
    else styleClose cs

/-- Match the style-block regex (case-insensitive "<style", characters other
than greater-than, a greater-than sign, a lazy body, case-insensitive
"</style>") at the head of the list. -/
def styleMatch (l : List Char) : Option (List Char) :=
  if ciHas styleOpenPat l then
    match scanGt (l.drop 6) with
    | some afterOpen => styleClose afterOpen
    | none => none
  else none

/-- Global regex replacement engine: scan left to right; where the matcher
fires, emit the replacement and resume after the match; otherwise keep one
character and move on.  Every step consumes at least one input character, so
fuel equal to the input length is always sufficient. -/
def regexStripF (m : List Char → Option (List Char)) (rep : List Char) :
    Nat → List Char → List Char
  | 0, s => s
  | _ + 1, [] => []
  | fuel + 1, c :: cs =>
    match m (c :: cs) with
    | some rest => rep ++ regexStripF m rep fuel rest
    | none => c :: regexStripF m rep fuel cs

/-- Remove style blocks and their content. -/
def styleStrip (l : List Char) : List Char := regexStripF styleMatch [] l.length l

/-- Replace div openings with newlines. -/
def divStrip (l : List Char) : List Char := regexStripF divMatch ['\n'] l.length l

/-- Strip all remaining tags, replacing each with a single space. -/
def tagStrip (l : List Char) : List Char := regexStripF tagMatch [' '] l.length l

/-- Remove anki play directives. -/
def playStrip (l : List Char) : List Char := regexStripF playMatch [] l.length l

/-- Global literal substring replacement (the entity decoding steps); the
pattern is a head character plus a tail so that it is never empty. -/
def replaceSubF (p0 : Char) (ps rep : List Char) : Nat → List Char → List Char
  | 0, s => s
  | _ + 1, [] => []
  | fuel + 1, c :: cs =>
    if litPfx (p0 :: ps) (c :: cs) then
      rep ++ replaceSubF p0 ps rep fuel (cs.drop ps.length)
    else c :: replaceSubF p0 ps rep fuel cs

/-- Decode the five named entities, in source order: the non-breaking space,
ampersand, less-than, greater-than and quote entities. -/
def entityPass (l : List Char) : List Char :=
  let a := replaceSubF '&' ['n', 'b', 's', 'p', ';'] [' '] l.length l
  let b := replaceSubF '&' ['a', 'm', 'p', ';'] ['&'] a.length a
  let c := replaceSubF '&' ['l', 't', ';'] ['<'] b.length b
  let d := replaceSubF '&' ['g', 't', ';'] ['>'] c.length c
  replaceSubF '&' ['q', 'u', 'o', 't', ';'] ['"'] d.length d

/-- The content sanitizer cleanWithRegex of src/index.ts: strip style
blocks, turn div openings into newlines, strip remaining tags to spaces,
remove play directives, decode the five entities, then normalise
whitespace line by line. -/
def cleanWithRegex (htmlString : String) : String :=
  let s1 := styleStrip htmlString.data
  let s2 := divStrip s1
  let s3 := tagStrip s2
  let s4 := playStrip s3
  let s5 := entityPass s4
  String.mk (normalizeLines s5)

/-! ## Query translator -/

/-- JavaScript String.prototype.startsWith, character by character. -/
def strStarts (s pat : String) : Bool := litPfx pat.data s.data

/-- JavaScript String.prototype.slice from a nonnegative offset. -/
def strSlice (s : String) (n : Nat) : String := String.mk (s.data.drop n)

/-- The query translator formatQuery of src/index.ts. -/
def formatQuery (query : String) : String :=
  if strStarts query "deck" then "deck:" ++ strSlice query 4
  else if strStarts query "is" then "is:" ++ strSlice query 2
  else query

/-! ## Data model and the collection-service collaborator -/

/-- The card shape served by the resource resolver (interface Card). -/
structure Card where
  cardId : Nat
  question : String
  answer : String
  due : Int
deriving DecidableEq, Repr

/-- The card information returned by the collection service (the fields the
adapter reads). -/
structure CardInfo where
  cardId : Nat
  question : String
  answer : String
  due : Int
  reps : Nat
deriving DecidableEq, Repr

/-- The note information returned by the collection service (the fields the
adapter reads). -/
structure NoteRec where
  noteId : Nat
  modelName : String
  tags : List String
  fields : List (String × String)
  cards : List Nat
  mod : Nat
  profile : Option String
deriving DecidableEq, Repr

/-- Per-deck statistics returned by the collection service. -/
structure DeckStat where
  name : String
  deck_id : Nat
  new_count : Nat
  learn_count : Nat
  review_count : Nat
  total_in_deck : Nat
deriving DecidableEq, Repr

/-- A note to be created through the collection service. -/
structure NewNote where
  deckName : String
  modelName : String
  fields : List (String × String)
deriving DecidableEq, Repr

/-- One call into the collection-service collaborator, as recorded by a
handler in the order the calls were made. -/
inductive SvcCall where
  | deckNamesAndIds
  | getDeckStats (decks : List String)
  | deleteDecks (decks : List String)
  | findNotes (query : String)
  | findCards (query : String)
  | notesInfo (notes : List Nat)
  | deleteNotes (notes : List Nat)
  | cardsInfo (cards : List Nat)
  | forgetCards (cards : List Nat)
  | updateNoteFields (note : Nat)
  | addNote (note : NewNote)
  | suspend (cards : List Nat)
  | unsuspend (cards : List Nat)
  | setEaseFactors (cards : List Nat) (eases : List Int)
deriving DecidableEq, Repr

/-- The collection-service collaborator, as a record of pure response
functions; mutating endpoints whose responses the adapter ignores have no
field, only a recorded SvcCall. -/
structure AnkiClient where
  deckNamesAndIds : List (String × Nat)
  getDeckStats : List String → List DeckStat
  findNotes : String → List Nat
  findCards : String → List Nat
  notesInfo : List Nat → List NoteRec
  cardsInfo : List Nat → List CardInfo
  updateNoteFields : Nat → List (String × String) → Except String Unit
  addNote : NewNote → Nat
  suspend : List Nat → Bool
  unsuspend : List Nat → Bool
  setEaseFactors : List Nat → List Int → List Bool

/-! ## Argument coercion and normalisation -/

/-- JavaScript String() applied to a possibly-absent argument. -/
def jsString : Option String → String
  | some s => s
  | none => "undefined"

/-- The singular/plural identifier normalisation used by the handlers: a
present plural array wins; otherwise a truthy (nonzero) singular is wrapped;
otherwise the operation fails with the given missing-argument message.  A
singular value of 0 is falsy in JavaScript and therefore treated as
absent. -/
def toIdList (plural : Option (List Nat)) (singular : Option Nat) (errMsg : String) :
    Except String (List Nat) :=
  match plural with
  | some arr => Except.ok arr
  | none =>
    match singular with
    | some v => if v = 0 then Except.error errMsg else Except.ok [v]
    | none => Except.error errMsg

/-- The singular/plural name normalisation: as toIdList, with the empty
string as the falsy singular value. -/
def toNameList (plural : Option (List String)) (singular : Option String) (errMsg : String) :
    Except String (List String) :=
  match plural with
  | some arr => Except.ok arr
  | none =>
    match singular with
    | some s => if s = "" then Except.error errMsg else Except.ok [s]
    | none => Except.error errMsg

/-- Missing-argument message for noteIds/noteId. -/
def noteIdsMissingMsg : String :=
  "Either \x27noteIds\x27 array or \x27noteId\x27 must be provided"

/-- Missing-argument message for cardIds/cardId. -/
def cardIdsMissingMsg : String :=
  "Either \x27cardIds\x27 array or \x27cardId\x27 must be provided"

/-- Missing-argument message for deckNames/deckName. -/
def deckNamesMissingMsg : String :=
  "Either \x27deckNames\x27 array or \x27deckName\x27 string must be provided"

/-- Missing-argument message for easeFactors/easeFactor. -/
def easeMissingMsg : String :=
  "Either \x27easeFactors\x27 array or \x27easeFactor\x27 must be provided"

/-- Confirmation-required message of delete_deck and delete_notes. -/
def confirmDeleteMsg : String :=
  "Deletion requires confirmDelete: true to prevent accidental deletions. This action cannot be undone!"

/-- Confirmation-required message of forget_cards. -/
def confirmResetMsg : String :=
  "Reset requires confirmReset: true to prevent accidental progress loss. This action cannot be undone!"

/-- The out-of-range message thrown by the ease-factor validation loop. -/
def easeRangeMsg (e : Int) : String :=
  "Ease factor " ++ toString e ++ " is outside typical range (1300-4000). Use with caution."

/-- The ease-factor normalisation of set_card_ease_factors: a present plural
array must match the card count; otherwise a truthy (nonzero) singular is
replicated across all cards; otherwise the operation fails. -/
def easeNorm (cardCount : Nat) (easeFactors : Option (List Int)) (easeFactor : Option Int) :
    Except String (List Int) :=
  match easeFactors with
  | some arr =>
    if arr.length ≠ cardCount then
      Except.error "Number of ease factors must match number of card IDs"
    else Except.ok arr
  | none =>
    match easeFactor with
    | some e => if e = 0 then Except.error easeMissingMsg else Except.ok (List.replicate cardCount e)
    | none => Except.error easeMissingMsg

/-! ## Resource resolver -/

/-- A sanitized card as assembled by findCardsAndOrder. -/
def mkCleanCard (ci : CardInfo) : Card :=
  { cardId := ci.cardId
    question := cleanWithRegex ci.question
    answer := cleanWithRegex ci.answer
    due := ci.due }

/-- Stable insertion of a card into a list sorted ascending by due value. -/
def insByDue (x : Card) : List Card → List Card
  | [] => [x]
  | y :: ys => if x.due ≤ y.due then x :: y :: ys else y :: insByDue x ys

/-- The stable ascending sort by due value; JavaScript Array.sort with the
comparator on due values is a stable sort, and every stable sort with the
same key produces this list. -/
def sortByDue : List Card → List Card
  | [] => []
  | x :: xs => insByDue x (sortByDue xs)

/-- findCardsAndOrder of src/index.ts: translate the query, find the
matching cards, sanitize question and answer, order ascending by due. -/
def findCardsAndOrder (c : AnkiClient) (query : String) : List Card × List SvcCall :=
  let q := formatQuery query
  let cardIds := c.findCards q
  let infos := c.cardsInfo cardIds
  (sortByDue (infos.map mkCleanCard), [SvcCall.findCards q, SvcCall.cardsInfo cardIds])

/-- The ReadResourceRequestSchema handler.  The source first runs the
platform URL constructor, new URL(request.params.uri); that constructor is
a platform collaborator, so the handler is modelled as a function of its
result, like the collection service: the argument pathname is some p when
the constructor succeeds with parsed pathname p (the pathname excludes any
query and fragment; for the advertised anki://host/segment addresses it is
/segment, and for an authority-only address such as anki://search it is
the empty string), and none when the constructor throws a TypeError on a
malformed URI — that exception propagates out of the handler uncaught.  On
a parsed pathname the handler takes its last slash-separated segment
(url.pathname.split("/").pop()), fails on an empty segment, and otherwise
serves findCardsAndOrder on the segment. -/
def readResource (c : AnkiClient) (pathname : Option String) :
    Except String (List Card) × List SvcCall :=
  match pathname with
  | none => (Except.error "TypeError: Invalid URL", [])
  | some p =>
    let query := (splitCh '/' p.data).getLastD []
    if query.isEmpty then (Except.error "Invalid resource URI", [])
    else
      let r := findCardsAndOrder c (String.mk query)
      (Except.ok r.1, r.2)

/-! ## Tool handlers -/

/-- Output shape of delete_deck. -/
structure DeleteDeckOut where
  success : Bool
  deck_name : String
  cards_deleted : Nat
  message : String
deriving DecidableEq, Repr

/-- The delete_deck handler: the confirmation gate runs before any service
call; then existence is checked, stats fetched, and the deck deleted. -/
def delete_deck (c : AnkiClient) (deckName : Option String) (confirmDelete : Option Bool) :
    Except String DeleteDeckOut × List SvcCall :=
  let dn := jsString deckName
  let confirm := confirmDelete.getD false
  if !confirm then (Except.error confirmDeleteMsg, [])
  else
    let allDecks := c.deckNamesAndIds
    if !(allDecks.any (fun kv => kv.1 = dn)) then
      (Except.error ("Deck \x27" ++ dn ++ "\x27 not found. Available decks: " ++
          String.intercalate ", " (allDecks.map (fun kv => kv.1))),
       [SvcCall.deckNamesAndIds])
    else
      let stats := c.getDeckStats [dn]
      let totalCards := match stats.head? with
        | some s => s.total_in_deck
        | none => 0
      (Except.ok
        { success := true
          deck_name := dn
          cards_deleted := totalCards
          message := "Successfully deleted deck \x27" ++ dn ++ "\x27 and " ++
            toString totalCards ++ " cards" },
       [SvcCall.deckNamesAndIds, SvcCall.getDeckStats [dn], SvcCall.deleteDecks [dn]])

/-- Output shape of delete_notes. -/
structure DeleteNotesOut where
  success : Bool
  deleted_notes : Nat
  deleted_cards : Nat
  note_ids : List Nat
  message : String
deriving DecidableEq, Repr

/-- The delete_notes handler: confirmation gate, then normalisation, then a
notesInfo lookup, then deletion. -/
def delete_notes (c : AnkiClient) (noteIds : Option (List Nat)) (noteId : Option Nat)
    (confirmDelete : Option Bool) : Except String DeleteNotesOut × List SvcCall :=
  let confirm := confirmDelete.getD false
  if !confirm then (Except.error confirmDeleteMsg, [])
  else
    match toIdList noteIds noteId noteIdsMissingMsg with
    | Except.error e => (Except.error e, [])
    | Except.ok ids =>
      if ids.isEmpty then (Except.error "At least one note ID must be provided", [])
      else
        let infos := c.notesInfo ids
        let totalCards := (infos.map (fun n => n.cards.length)).sum
        (Except.ok
          { success := true
            deleted_notes := ids.length
            deleted_cards := totalCards
            note_ids := ids
            message := "Successfully deleted " ++ toString ids.length ++ " notes and " ++
              toString totalCards ++ " associated cards" },
         [SvcCall.notesInfo ids, SvcCall.deleteNotes ids])

/-- Output shape of forget_cards. -/
structure ForgetCardsOut where
  success : Bool
  cards_reset : Nat
  total_reviews_lost : Nat
  card_ids : List Nat
  message : String
deriving DecidableEq, Repr

/-- The forget_cards handler: confirmation gate, then normalisation, then a
cardsInfo lookup, then the reset. -/
def forget_cards (c : AnkiClient) (cardIds : Option (List Nat)) (cardId : Option Nat)
    (confirmReset : Option Bool) : Except String ForgetCardsOut × List SvcCall :=
  let confirm := confirmReset.getD false
  if !confirm then (Except.error confirmResetMsg, [])
  else
    match toIdList cardIds cardId cardIdsMissingMsg with
    | Except.error e => (Except.error e, [])
    | Except.ok ids =>
      if ids.isEmpty then (Except.error "At least one card ID must be provided", [])
      else
        let infos := c.cardsInfo ids
        let totalReviews := (infos.map (fun ci => ci.reps)).sum
        (Except.ok
          { success := true
            cards_reset := ids.length
            total_reviews_lost := totalReviews
            card_ids := ids
            message := "Successfully reset " ++ toString ids.length ++
              " cards to \x27new\x27 status, removing " ++ toString totalReviews ++
              " total reviews" },
         [SvcCall.cardsInfo ids, SvcCall.forgetCards ids])

/-- The add_card handler: the note is always created in deck Default with
model Basic, fields Back and Front, and the reported card id is the first
card found for the new note. -/
def add_card (c : AnkiClient) (front : Option String) (back : Option String) :
    Except String String × List SvcCall :=
  let f := jsString front
  let b := jsString back
  let note : NewNote :=
    { deckName := "Default", modelName := "Basic", fields := [("Back", b), ("Front", f)] }
  let noteId := c.addNote note
  let q := "nid:" ++ toString noteId
  let cardIds := c.findCards q
  let cardIdText := match cardIds.head? with
    | some i => toString i
    | none => "undefined"
  (Except.ok ("Created card with id " ++ cardIdText),
   [SvcCall.addNote note, SvcCall.findCards q])

/-- The get_deck_stats handler. -/
def get_deck_stats (c : AnkiClient) (deckNames : Option (List String)) (deckName : Option String) :
    Except String (List DeckStat) × List SvcCall :=
  match toNameList deckNames deckName deckNamesMissingMsg with
  | Except.error e => (Except.error e, [])
  | Except.ok names =>
    let stats := c.getDeckStats names
    let result := stats.map (fun stat =>
      { name := stat.name
        deck_id := stat.deck_id
        new_count := stat.new_count
        learn_count := stat.learn_count
        review_count := stat.review_count
        total_in_deck := stat.total_in_deck : DeckStat })
    (Except.ok result, [SvcCall.getDeckStats names])

/-- Output shape of get_note_info_detailed; the source converts the
modification timestamp with new Date(mod * 1000).toISOString(), modelled
here by the millisecond value itself. -/
structure NoteOut where
  note_id : Nat
  model_name : String
  tags : List String
  fields : List (String × String)
  cards : List Nat
  modification_time : Option Nat
  profile : Option String
deriving DecidableEq, Repr

/-- The get_note_info_detailed handler. -/
def get_note_info_detailed (c : AnkiClient) (noteIds : Option (List Nat)) (noteId : Option Nat) :
    Except String (List NoteOut) × List SvcCall :=
  match toIdList noteIds noteId noteIdsMissingMsg with
  | Except.error e => (Except.error e, [])
  | Except.ok ids =>
    if ids.isEmpty then (Except.error "At least one note ID must be provided", [])
    else
      let infos := c.notesInfo ids
      let result := infos.map (fun note =>
        { note_id := note.noteId
          model_name := note.modelName
          tags := note.tags
          fields := note.fields
          cards := note.cards
          modification_time := if note.mod = 0 then none else some (note.mod * 1000)
          profile := match note.profile with
            | some p => if p = "" then none else some p
            | none => none : NoteOut })
      (Except.ok result, [SvcCall.notesInfo ids])

/-- Per-note result entry of update_note_fields. -/
structure UNFItem where
  note_id : Nat
  success : Bool
  error : Option String
deriving DecidableEq, Repr

/-- Output shape of update_note_fields. -/
structure UNFOut where
  total_notes : Nat
  successful_updates : Nat
  failed_updates : Nat
  updated_fields : List String
  results : List UNFItem
deriving DecidableEq, Repr

/-- The update_note_fields handler: per-note try/catch collecting a
success/failure entry for each note, then aggregate counts; an upstream
failure on one note never aborts the batch. -/
def update_note_fields (c : AnkiClient) (noteIds : Option (List Nat)) (noteId : Option Nat)
    (fields : Option (List (String × String))) : Except String UNFOut × List SvcCall :=
  match toIdList noteIds noteId noteIdsMissingMsg with
  | Except.error e => (Except.error e, [])
  | Except.ok ids =>
    match fields with
    | none => (Except.error "Fields object must be provided with at least one field to update", [])
    | some fs =>
      if fs.isEmpty then
        (Except.error "Fields object must be provided with at least one field to update", [])
      else
        let results := ids.map (fun nid =>
          match c.updateNoteFields nid fs with
          | Except.ok _ => { note_id := nid, success := true, error := none : UNFItem }
          | Except.error err => { note_id := nid, success := false, error := some err : UNFItem })
        let successCount := (results.filter (fun r => r.success)).length
        let failureCount := results.length - successCount
        (Except.ok
          { total_notes := ids.length
            successful_updates := successCount
            failed_updates := failureCount
            updated_fields := fs.map (fun kv => kv.1)
            results := results },
         ids.map (fun nid => SvcCall.updateNoteFields nid))

/-- Output shape of suspend_cards. -/
structure SuspendOut where
  success : Bool
  action : String
  cards_affected : Nat
  total_cards : Nat
  card_ids : List Nat
  message : String
deriving DecidableEq, Repr

/-- The suspend_cards handler. -/
def suspend_cards (c : AnkiClient) (cardIds : Option (List Nat)) (cardId : Option Nat)
    (suspend : Option Bool) : Except String SuspendOut × List SvcCall :=
  let susp := suspend.getD false
  match toIdList cardIds cardId cardIdsMissingMsg with
  | Except.error e => (Except.error e, [])
  | Except.ok ids =>
    if ids.isEmpty then (Except.error "At least one card ID must be provided", [])
    else
      let result := if susp then c.suspend ids else c.unsuspend ids
      let call := if susp then SvcCall.suspend ids else SvcCall.unsuspend ids
      let action := if susp then "suspended" else "unsuspended"
      let successCount := if result then ids.length else 0
      (Except.ok
        { success := true
          action := action
          cards_affected := successCount
          total_cards := ids.length
          card_ids := ids
          message := "Successfully " ++ action ++ " " ++ toString successCount ++
            " out of " ++ toString ids.length ++ " cards" },
       [call])

/-- Output shape of set_card_ease_factors. -/
structure SetEaseOut where
  success : Bool
  cards_updated : Nat
  total_cards : Nat
  ease_factors : List Int
  card_ids : List Nat
  message : String
deriving DecidableEq, Repr

/-- The set_card_ease_factors handler: normalise card ids, normalise ease
factors, validate every factor against the 1300-4000 range (the first
offender aborts), and only then call the service. -/
def set_card_ease_factors (c : AnkiClient) (cardIds : Option (List Nat)) (cardId : Option Nat)
    (easeFactors : Option (List Int)) (easeFactor : Option Int) :
    Except String SetEaseOut × List SvcCall :=
  match toIdList cardIds cardId cardIdsMissingMsg with
  | Except.error e => (Except.error e, [])
  | Except.ok ids =>
    if ids.isEmpty then (Except.error "At least one card ID must be provided", [])
    else
      match easeNorm ids.length easeFactors easeFactor with
      | Except.error e => (Except.error e, [])
      | Except.ok eases =>
        match eases.find? (fun e => decide (e < 1300) || decide (e > 4000)) with
        | some e => (Except.error (easeRangeMsg e), [])
        | none =>
          let result := c.setEaseFactors ids eases
          let successCount := (result.filter (fun b => b)).length
          (Except.ok
            { success := true
              cards_updated := successCount
              total_cards := ids.length
              ease_factors := eases
              card_ids := ids
              message := "Successfully updated ease factors for " ++ toString successCount ++
                " out of " ++ toString ids.length ++ " cards" },
           [SvcCall.setEaseFactors ids eases])

/-- Output shape of find_notes. -/
structure FindNotesOut where
  query : String
  total_found : Nat
  returned_count : Nat
  note_ids : List Nat
  truncated : Bool
deriving DecidableEq, Repr

/-- The find_notes handler: the limit defaults to 100 (also for a falsy
explicit 0) and is clamped to 1000; results beyond the limit are dropped and
reported as truncated. -/
def find_notes (c : AnkiClient) (query : Option String) (limit : Option Nat) :
    Except String FindNotesOut × List SvcCall :=
  let q := jsString query
  let lim := min (match limit with
    | some l => if l = 0 then 100 else l
    | none => 100) 1000
  if (trimBoth q.data).isEmpty then
    (Except.error ("Query cannot be empty. Use Anki search syntax like " ++
      "\x27deck:Japanese tag:grammar\x27 or \x27front:*kanji*\x27"), [])
  else
    let ids := c.findNotes q
    let limited := ids.take lim
    (Except.ok
      { query := q
        total_found := ids.length
        returned_count := limited.length
        note_ids := limited
        truncated := decide (ids.length > lim) },
     [SvcCall.findNotes q])

/-- Output shape of find_cards_advanced. -/
structure FindCardsOut where
  query : String
  total_found : Nat
  returned_count : Nat
  card_ids : List Nat
  truncated : Bool
deriving DecidableEq, Repr

/-- The find_cards_advanced handler, structurally identical to find_notes
but searching cards. -/
def find_cards_advanced (c : AnkiClient) (query : Option String) (limit : Option Nat) :
    Except String FindCardsOut × List SvcCall :=
  let q := jsString query
  let lim := min (match limit with
    | some l => if l = 0 then 100 else l
    | none => 100) 1000
  if (trimBoth q.data).isEmpty then
    (Except.error ("Query cannot be empty. Use advanced Anki search syntax like " ++
      "\x27deck:Japanese prop:ease<2.0\x27 or \x27is:due prop:ivl>30\x27"), [])
  else
    let ids := c.findCards q
    let limited := ids.take lim
    (Except.ok
      { query := q
        total_found := ids.length
        returned_count := limited.length
        card_ids := limited
        truncated := decide (ids.length > lim) },
     [SvcCall.findCards q])

/-- The effective search limit as the amended claim states it: the clamp
min(limit, 1000) applies to a present nonzero limit; an absent or zero limit
falls back to the default 100. -/
def specEffectiveLimit : Option Nat → Nat
  | some l => if l = 0 then 100 else min l 1000
  | none => 100

/-! ## Concrete collaborators used by witnesses and counterexamples -/

/-- A trivial collection service: everything empty. -/
def svc0 : AnkiClient :=
  { deckNamesAndIds := []
    getDeckStats := fun _ => []
    findNotes := fun _ => []
    findCards := fun _ => []
    notesInfo := fun _ => []
    cardsInfo := fun _ => []
    updateNoteFields := fun _ _ => Except.ok ()
    addNote := fun _ => 0
    suspend := fun _ => true
    unsuspend := fun _ => true
    setEaseFactors := fun _ _ => [] }

/-- A service with exactly one matching note. -/
def svc1 : AnkiClient := { svc0 with findNotes := fun _ => [42] }

/-- A service with fifteen matching cards. -/
def svc15 : AnkiClient :=
  { svc0 with findCards := fun _ => [1, 2, 3, 4, 5, 6, 7, 8, 9, 10, 11, 12, 13, 14, 15] }

/-- A service whose note 2 fails to update upstream. -/
def svcFail2 : AnkiClient :=
  { svc0 with updateNoteFields := fun nid _ =>
      if nid = 2 then Except.error "Anki update failed" else Except.ok () }

/-- A service returning two cards out of due order. -/
def svcW : AnkiClient :=
  { svc0 with
    findCards := fun _ => [7, 8]
    cardsInfo := fun _ =>
      [{ cardId := 7, question := "q1", answer := "a1", due := 9, reps := 0 },
       { cardId := 8, question := "q2", answer := "a2", due := 3, reps := 0 }] }

/-! ## General helper lemmas -/

theorem litPfx_head_ne {p c : Char} (ps cs : List Char) (h : p ≠ c) :
    litPfx (p :: ps) (c :: cs) = false := by
  simp [litPfx, h]

theorem effLimit_eq (limit : Option Nat) :
    min (match limit with
      | some l => if l = 0 then 100 else l
      | none => 100) 1000 = specEffectiveLimit limit := by
  cases limit with
  | none => rfl
  | some l =>
    by_cases h : l = 0 <;> simp [specEffectiveLimit, h]

theorem isEmpty_false_of_ne_nil {α : Type} {l : List α} (h : l ≠ []) : l.isEmpty = false := by
  cases l with
  | nil => exact absurd rfl h
  | cons a as => rfl

/-! ## C1: the confirmation gate of the destructive operations -/

/-- C1: for delete_deck, delete_notes and forget_cards, an absent or false
confirmation flag makes the handler fail immediately with the
confirmation-required error, with zero calls to the collection service. -/
theorem C1_destructive_requires_confirmation (c : AnkiClient) (deckName : Option String)
    (noteIds : Option (List Nat)) (noteId : Option Nat)
    (cardIds : Option (List Nat)) (cardId : Option Nat)
    (confirmDelete confirmReset : Option Bool)
    (hd : confirmDelete.getD false = false) (hr : confirmReset.getD false = false) :
    delete_deck c deckName confirmDelete = (Except.error confirmDeleteMsg, []) ∧
    delete_notes c noteIds noteId confirmDelete = (Except.error confirmDeleteMsg, []) ∧
    forget_cards c cardIds cardId confirmReset = (Except.error confirmResetMsg, []) := by
  refine ⟨?_, ?_, ?_⟩ <;> simp [delete_deck, delete_notes, forget_cards, hd, hr]

/-- C1 witness: the gate at a concrete client with the flags absent. -/
theorem C1_destructive_requires_confirmation_witness :
    delete_deck svc0 (some "Test") none = (Except.error confirmDeleteMsg, []) ∧
    delete_notes svc0 (some [1]) none none = (Except.error confirmDeleteMsg, []) ∧
    forget_cards svc0 (some [1]) none (some false) = (Except.error confirmResetMsg, []) :=
  C1_destructive_requires_confirmation svc0 (some "Test") (some [1]) none (some [1]) none
    none (some false) rfl rfl

/-! ## C2: the query translator -/

/-- C2: formatQuery maps a token starting with "deck" to "deck:" plus the
offset-4 remainder, a token starting with "is" (and therefore not with
"deck") to "is:" plus the offset-2 remainder, and any other token to
itself. -/
theorem C2_formatQuery_spec (t : String) :
    (strStarts t "deck" = true → formatQuery t = "deck:" ++ strSlice t 4) ∧
    (strStarts t "deck" = false → strStarts t "is" = true →
      formatQuery t = "is:" ++ strSlice t 2) ∧
    (strStarts t "deck" = false → strStarts t "is" = false → formatQuery t = t) := by
  refine ⟨fun h => ?_, fun h1 h2 => ?_, fun h1 h2 => ?_⟩ <;> simp [formatQuery, *]

/-- C2 witness: the translator at the three spec examples. -/
theorem C2_formatQuery_spec_witness :
    formatQuery "deckcurrent" = "deck:current" ∧
    formatQuery "isnew" = "is:new" ∧
    formatQuery "front:dog" = "front:dog" := by
  refine ⟨?_, ?_, ?_⟩
  · exact ((C2_formatQuery_spec "deckcurrent").1 (by decide)).trans (by decide)
  · exact ((C2_formatQuery_spec "isnew").2.1 (by decide) (by decide)).trans (by decide)
  · exact (C2_formatQuery_spec "front:dog").2.2 (by decide) (by decide)

/-! ## C9: falsy singular arguments are treated as absent -/

/-- C9: a falsy singular argument (identifier 0, empty string) with the
plural field missing makes the operation fail with the missing-argument
error even though the caller supplied the singular field. -/
theorem C9_falsy_singular_missing :
    update_note_fields svc0 none (some 0) (some [("Front", "x")]) =
      (Except.error noteIdsMissingMsg, []) ∧
    suspend_cards svc0 none (some 0) (some true) = (Except.error cardIdsMissingMsg, []) ∧
    get_deck_stats svc0 none (some "") = (Except.error deckNamesMissingMsg, []) :=
  ⟨rfl, rfl, rfl⟩

/-! ## C10: add_card always uses deck Default and model Basic -/

/-- C10: add_card submits a note whose deck is always Default and whose
model is always Basic, with the supplied front and back in the Front and
Back fields, and reports the first card found for the new note. -/
theorem C10_add_card_fixed_deck_model (c : AnkiClient) (front back : Option String) :
    ∃ note q, (add_card c front back).2 = [SvcCall.addNote note, SvcCall.findCards q] ∧
      note.deckName = "Default" ∧ note.modelName = "Basic" ∧
      note.fields = [("Back", jsString back), ("Front", jsString front)] ∧
      q = "nid:" ++ toString (c.addNote note) ∧
      (add_card c front back).1 = Except.ok ("Created card with id " ++
        (match (c.findCards q).head? with
         | some i => toString i
         | none => "undefined")) :=
  ⟨_, _, rfl, rfl, rfl, rfl, rfl, rfl⟩

/-! ## C4: the singular/plural equivalence -/

/-- C4 counterexample: the singular identifier 0 is falsy, so supplying
only noteId = 0 fails with the missing-argument error while the plural
one-element array [0] normalises to [0]; the two are not the same. -/
theorem C4_singular_plural_counterexample :
    toIdList none (some 0) noteIdsMissingMsg = Except.error noteIdsMissingMsg ∧
    toIdList (some [0]) none noteIdsMissingMsg = Except.ok [0] ∧
    (Except.error noteIdsMissingMsg : Except String (List Nat)) ≠ Except.ok [0] :=
  ⟨rfl, rfl, fun h => Except.noConfusion h⟩

/-- C4 (amended): for every truthy value (a nonzero identifier, a nonempty
name), the singular form normalises to the same one-element array as the
plural form, and the cited handlers behave identically on both. -/
theorem C4_singular_plural_amended (c : AnkiClient) (e : String) (v : Nat) (s : String)
    (hv : v ≠ 0) (hs : s ≠ "") :
    toIdList none (some v) e = toIdList (some [v]) none e ∧
    toNameList none (some s) e = toNameList (some [s]) none e ∧
    get_note_info_detailed c none (some v) = get_note_info_detailed c (some [v]) none ∧
    get_deck_stats c none (some s) = get_deck_stats c (some [s]) none := by
  refine ⟨?_, ?_, ?_, ?_⟩ <;>
    simp [toIdList, toNameList, get_note_info_detailed, get_deck_stats, hv, hs]

/-- C4 witness: the amended equivalence at a nonzero note id and a nonempty
deck name. -/
theorem C4_singular_plural_amended_witness :
    toIdList none (some 5) noteIdsMissingMsg = toIdList (some [5]) none noteIdsMissingMsg ∧
    toNameList none (some "Japanese") deckNamesMissingMsg =
      toNameList (some ["Japanese"]) none deckNamesMissingMsg ∧
    get_note_info_detailed svc0 none (some 5) = get_note_info_detailed svc0 (some [5]) none ∧
    get_deck_stats svc0 none (some "Japanese") = get_deck_stats svc0 (some ["Japanese"]) none := by
  have h1 := C4_singular_plural_amended svc0 noteIdsMissingMsg 5 "Japanese"
    (by decide) (by decide)
  have h2 := C4_singular_plural_amended svc0 deckNamesMissingMsg 5 "Japanese"
    (by decide) (by decide)
  exact ⟨h1.1, h2.2.1, h1.2.2.1, h1.2.2.2⟩

/-! ## C5 machinery: each scanner is the identity away from its trigger -/

theorem tagMatch_none {c : Char} (cs : List Char) (h : c ≠ '<') :
    tagMatch (c :: cs) = none := by
  cases cs with
  | nil => rfl
  | cons d rest => simp [tagMatch, h]

theorem divMatch_none {c : Char} (cs : List Char) (h : c ≠ '<') :
    divMatch (c :: cs) = none := by
  simp [divMatch, litPfx_head_ne _ _ (Ne.symm h)]

theorem playMatch_none {c : Char} (cs : List Char) (h : c ≠ '[') :
    playMatch (c :: cs) = none := by
  have hl : litPfx playPat (c :: cs) = false := by
    show litPfx ('[' :: _) (c :: cs) = false
    exact litPfx_head_ne _ _ (Ne.symm h)
  simp [playMatch, hl]

theorem styleMatch_none {c : Char} (cs : List Char) (h : c ≠ '<') :
    styleMatch (c :: cs) = none := by
  have hnum : ¬(97 ≤ ('<' : Char).toNat ∧ ('<' : Char).toNat ≤ 122 ∧
      c.toNat + 32 = ('<' : Char).toNat) := by
    intro hcon
    exact absurd hcon.1 (by decide)
  have hc : ciChEq '<' c = false := by
    simp [ciChEq, Ne.symm h, hnum]
  simp [styleMatch, styleOpenPat, ciHas, hc]

theorem regexStripF_id (m : List Char → Option (List Char)) (rep : List Char) (bad : Char)
    (hm : ∀ c cs, c ≠ bad → m (c :: cs) = none) :
    ∀ (fuel : Nat) (s : List Char), bad ∉ s → regexStripF m rep fuel s = s := by
  intro fuel
  induction fuel with
  | zero => intro s _; rfl
  | succ n ih =>
    intro s hs
    cases s with
    | nil => rfl
    | cons c cs =>
      have hc : c ≠ bad := fun e => hs (e ▸ List.mem_cons_self c cs)
      simp only [regexStripF, hm c cs hc]
      rw [ih cs (fun hb => hs (List.mem_cons_of_mem c hb))]

theorem styleStrip_id {l : List Char} (h : '<' ∉ l) : styleStrip l = l :=
  regexStripF_id styleMatch [] '<' (fun _ cs hc => styleMatch_none cs hc) l.length l h

theorem divStrip_id {l : List Char} (h : '<' ∉ l) : divStrip l = l :=
  regexStripF_id divMatch ['\n'] '<' (fun _ cs hc => divMatch_none cs hc) l.length l h

theorem tagStrip_id {l : List Char} (h : '<' ∉ l) : tagStrip l = l :=
  regexStripF_id tagMatch [' '] '<' (fun _ cs hc => tagMatch_none cs hc) l.length l h

theorem playStrip_id {l : List Char} (h : '[' ∉ l) : playStrip l = l :=
  regexStripF_id playMatch [] '[' (fun _ cs hc => playMatch_none cs hc) l.length l h

theorem replaceSubF_id (p0 : Char) (ps rep : List Char) :
    ∀ (fuel : Nat) (s : List Char), p0 ∉ s → replaceSubF p0 ps rep fuel s = s := by
  intro fuel
  induction fuel with
  | zero => intro s _; rfl
  | succ n ih =>
    intro s hs
    cases s with
    | nil => rfl
    | cons c cs =>
      have hc : p0 ≠ c := fun e => hs (e ▸ List.mem_cons_self c cs)
      simp only [replaceSubF, litPfx_head_ne _ _ hc]
      rw [if_neg (by simp), ih cs (fun hb => hs (List.mem_cons_of_mem c hb))]

theorem entityPass_id {l : List Char} (h : '&' ∉ l) : entityPass l = l := by
  simp only [entityPass]
  rw [replaceSubF_id '&' ['n', 'b', 's', 'p', ';'] [' '] l.length l h]
  rw [replaceSubF_id '&' ['a', 'm', 'p', ';'] ['&'] l.length l h]
  rw [replaceSubF_id '&' ['l', 't', ';'] ['<'] l.length l h]
  rw [replaceSubF_id '&' ['g', 't', ';'] ['>'] l.length l h]
  exact replaceSubF_id '&' ['q', 'u', 'o', 't', ';'] ['"'] l.length l h

/-! ## C5 machinery: idempotence of the whitespace normalisation -/

theorem splitCh_ne_nil (sep : Char) (l : List Char) : splitCh sep l ≠ [] := by
  induction l with
  | nil => simp [splitCh]
  | cons c cs ih =>
    by_cases h : c = sep
    · simp [splitCh, h]
    · simp only [splitCh, if_neg h]
      cases hs : splitCh sep cs with
      | nil => exact absurd hs ih
      | cons a as => simp

theorem mem_splitCh (sep : Char) (l : List Char) :
    ∀ p ∈ splitCh sep l, sep ∉ p := by
  induction l with
  | nil =>
    intro p hp
    simp [splitCh] at hp
    subst hp
    simp
  | cons c cs ih =>
    intro p hp
    by_cases h : c = sep
    · simp only [splitCh, if_pos h] at hp
      rcases List.mem_cons.mp hp with hp | hp
      · subst hp; simp
      · exact ih p hp
    · simp only [splitCh, if_neg h] at hp
      cases hs : splitCh sep cs with
      | nil => exact absurd hs (splitCh_ne_nil sep cs)
      | cons a as =>
        rw [hs] at hp
        rcases List.mem_cons.mp hp with hp | hp
        · subst hp
          intro hm
          rcases List.mem_cons.mp hm with hm | hm
          · exact h hm.symm
          · exact ih a (by rw [hs]; exact List.mem_cons_self a as) hm
        · exact ih p (by rw [hs]; exact List.mem_cons_of_mem a hp)

theorem splitCh_append (sep : Char) (p r : List Char) (hp : sep ∉ p) :
    splitCh sep (p ++ sep :: r) = p :: splitCh sep r := by
  induction p with
  | nil => simp [splitCh]
  | cons c cs ih =>
    have hc : ¬(c = sep) := fun e => hp (by rw [e]; exact List.mem_cons_self sep cs)
    have hcs : sep ∉ cs := fun hm => hp (List.mem_cons_of_mem c hm)
    simp only [List.cons_append, splitCh, if_neg hc, List.append_eq, ih hcs]

theorem splitCh_of_not_mem (sep : Char) (p : List Char) (hp : sep ∉ p) :
    splitCh sep p = [p] := by
  induction p with
  | nil => rfl
  | cons c cs ih =>
    have hc : ¬(c = sep) := fun e => hp (by rw [e]; exact List.mem_cons_self sep cs)
    have hcs : sep ∉ cs := fun hm => hp (List.mem_cons_of_mem c hm)
    simp only [splitCh, if_neg hc, ih hcs]

theorem splitCh_joinNl (ps : List (List Char)) (h : ∀ p ∈ ps, '\n' ∉ p) (hne : ps ≠ []) :
    splitCh '\n' (joinNl ps) = ps := by
  induction ps with
  | nil => exact absurd rfl hne
  | cons p qs ih =>
    cases qs with
    | nil => exact splitCh_of_not_mem '\n' p (h p (List.mem_cons_self p []))
    | cons q rs =>
      have hj : joinNl (p :: q :: rs) = p ++ '\n' :: joinNl (q :: rs) := rfl
      rw [hj, splitCh_append '\n' p _ (h p (List.mem_cons_self p (q :: rs))),
        ih (fun a ha => h a (List.mem_cons_of_mem p ha)) (by simp)]

theorem dropWhile_idem {α : Type} (q : α → Bool) (l : List α) :
    List.dropWhile q (List.dropWhile q l) = List.dropWhile q l := by
  induction l with
  | nil => rfl
  | cons a as ih =>
    by_cases h : q a
    · simp [List.dropWhile_cons, h, ih]
    · simp [List.dropWhile_cons, h]

theorem dropWhile_fix_head {α : Type} (q : α → Bool) (a : α) (l : List α)
    (h : List.dropWhile q (a :: l) = a :: l) : q a = false := by
  by_contra hq
  rw [Bool.not_eq_false] at hq
  rw [List.dropWhile_cons, if_pos hq] at h
  have hle := (List.dropWhile_sublist (l := l) q).length_le
  have h2 := congrArg List.length h
  simp only [List.length_cons] at h2
  omega

theorem trimEnd_pfx (l : List Char) : ∃ t, l = trimEnd l ++ t := by
  refine ⟨(l.reverse.takeWhile isWsChar).reverse, ?_⟩
  conv_lhs => rw [← List.reverse_reverse l,
    ← List.takeWhile_append_dropWhile (p := isWsChar) (l := l.reverse)]
  rw [List.reverse_append]
  rfl

theorem dropWhile_trimEnd_fix {u : List Char} (h : List.dropWhile isWsChar u = u) :
    List.dropWhile isWsChar (trimEnd u) = trimEnd u := by
  obtain ⟨t, ht⟩ := trimEnd_pfx u
  cases he : trimEnd u with
  | nil => rfl
  | cons a v =>
    rw [he] at ht
    have hu : u = a :: (v ++ t) := by rw [ht]; rfl
    have ha : isWsChar a = false := by
      apply dropWhile_fix_head isWsChar a (v ++ t)
      rw [← hu]
      exact h
    rw [List.dropWhile_cons, if_neg (by simp [ha])]

theorem trimEnd_idem (u : List Char) : trimEnd (trimEnd u) = trimEnd u := by
  unfold trimEnd
  rw [List.reverse_reverse, dropWhile_idem]

theorem trimBoth_idem (l : List Char) : trimBoth (trimBoth l) = trimBoth l := by
  unfold trimBoth
  rw [dropWhile_trimEnd_fix (dropWhile_idem isWsChar l), trimEnd_idem]

theorem mem_of_mem_dropWhile {α : Type} {q : α → Bool} {x : α} {u : List α}
    (h : x ∈ List.dropWhile q u) : x ∈ u :=
  (List.dropWhile_sublist q).subset h

theorem mem_trimBoth {x : Char} {l : List Char} (h : x ∈ trimBoth l) : x ∈ l := by
  unfold trimBoth trimEnd at h
  rw [List.mem_reverse] at h
  have h2 := mem_of_mem_dropWhile h
  rw [List.mem_reverse] at h2
  exact mem_of_mem_dropWhile h2

theorem map_self {α : Type} (f : α → α) (l : List α) (h : ∀ a ∈ l, f a = a) :
    l.map f = l := by
  induction l with
  | nil => rfl
  | cons a as ih =>
    simp [h a (List.mem_cons_self a as), ih (fun b hb => h b (List.mem_cons_of_mem a hb))]

theorem normalizeLines_idem (l : List Char) :
    normalizeLines (normalizeLines l) = normalizeLines l := by
  have hnl : ∀ p ∈ ((splitCh '\n' l).map trimBoth).filter (fun p => !p.isEmpty), '\n' ∉ p := by
    intro p hp
    obtain ⟨q, hq, hqe⟩ := List.mem_map.mp (List.mem_of_mem_filter hp)
    intro hm
    rw [← hqe] at hm
    exact mem_splitCh '\n' l q hq (mem_trimBoth hm)
  have htr : ∀ p ∈ ((splitCh '\n' l).map trimBoth).filter (fun p => !p.isEmpty),
      trimBoth p = p := by
    intro p hp
    obtain ⟨q, hq, hqe⟩ := List.mem_map.mp (List.mem_of_mem_filter hp)
    rw [← hqe]
    exact trimBoth_idem q
  have hne : ∀ p ∈ ((splitCh '\n' l).map trimBoth).filter (fun p => !p.isEmpty),
      (!p.isEmpty) = true := fun p hp => (List.mem_filter.mp hp).2
  by_cases hq : ((splitCh '\n' l).map trimBoth).filter (fun p => !p.isEmpty) = []
  · unfold normalizeLines
    rw [hq]
    rfl
  · unfold normalizeLines
    rw [splitCh_joinNl _ hnl hq, map_self trimBoth _ htr, List.filter_eq_self.mpr hne]

/-! ## C5: the sanitizer is not idempotent in general -/

/-- C5 counterexample: sanitizing the ampersand entity of an ampersand
entity yields the ampersand entity, which a second sanitization decodes
further, so the pipeline is not idempotent. -/
theorem C5_sanitize_idempotent_counterexample :
    cleanWithRegex (cleanWithRegex "&amp;amp;") ≠ cleanWithRegex "&amp;amp;" := by decide

/-- C5 (amended): the sanitizer is idempotent on every input whose
sanitized form is free of the trigger characters of the pipeline (no
less-than sign, no ampersand, no opening bracket); entity decoding can
reintroduce such characters, which is exactly what breaks idempotence in
general. -/
theorem C5_sanitize_idempotent_amended (x : String)
    (h1 : '<' ∉ (cleanWithRegex x).data) (h2 : '&' ∉ (cleanWithRegex x).data)
    (h3 : '[' ∉ (cleanWithRegex x).data) :
    cleanWithRegex (cleanWithRegex x) = cleanWithRegex x := by
  have hdata : ∀ y : String, (cleanWithRegex y).data =
      normalizeLines (entityPass (playStrip (tagStrip (divStrip (styleStrip y.data))))) := by
    intro y
    simp only [cleanWithRegex]
  have hmk : ∀ y : String, cleanWithRegex y =
      String.mk (normalizeLines (entityPass (playStrip (tagStrip
        (divStrip (styleStrip y.data)))))) := by
    intro y
    simp only [cleanWithRegex]
  rw [hmk (cleanWithRegex x),
    styleStrip_id h1, divStrip_id h1, tagStrip_id h1, playStrip_id h3, entityPass_id h2,
    hdata x, normalizeLines_idem]
  exact (hmk x).symm

/-- C5 witness: the amended idempotence at a trigger-free sanitized
input. -/
theorem C5_sanitize_idempotent_amended_witness :
    ('<' ∉ (cleanWithRegex "hello world").data ∧ '&' ∉ (cleanWithRegex "hello world").data ∧
      '[' ∉ (cleanWithRegex "hello world").data) ∧
    cleanWithRegex (cleanWithRegex "hello world") = cleanWithRegex "hello world" :=
  ⟨by decide, C5_sanitize_idempotent_amended "hello world" (by decide) (by decide) (by decide)⟩

/-! ## C3: the search limit clamp -/

/-- C3 counterexample: with an explicit limit of 0 and one matching note,
the handler returns one identifier (a zero limit is falsy and falls back to
the default of 100), while the claimed formula min(n, min(L, 1000)) gives
zero. -/
theorem C3_limit_counterexample :
    (find_notes svc1 (some "deck:Japanese") (some 0)).1 =
      Except.ok { query := "deck:Japanese", total_found := 1, returned_count := 1,
                  note_ids := [42], truncated := false } ∧
    (1 : Nat) ≠ min 1 (min 0 1000) :=
  ⟨rfl, by decide⟩

/-- C3 (amended): for find_notes and find_cards_advanced with a nonempty
query, the effective limit is min(L, 1000) for a present nonzero limit L
and 100 when L is absent or zero; exactly min(n, effective limit)
identifiers are returned, returned_count equals that number, and truncated
holds exactly when n exceeds the effective limit. -/
theorem C3_limit_clamp_amended (c : AnkiClient) (q : String) (limit : Option Nat)
    (hq : (trimBoth q.data).isEmpty = false) :
    (∃ out, find_notes c (some q) limit = (Except.ok out, [SvcCall.findNotes q]) ∧
      out.total_found = (c.findNotes q).length ∧
      out.note_ids = (c.findNotes q).take (specEffectiveLimit limit) ∧
      out.returned_count = min ((c.findNotes q).length) (specEffectiveLimit limit) ∧
      out.truncated = decide ((c.findNotes q).length > specEffectiveLimit limit)) ∧
    (∃ out, find_cards_advanced c (some q) limit = (Except.ok out, [SvcCall.findCards q]) ∧
      out.total_found = (c.findCards q).length ∧
      out.card_ids = (c.findCards q).take (specEffectiveLimit limit) ∧
      out.returned_count = min ((c.findCards q).length) (specEffectiveLimit limit) ∧
      out.truncated = decide ((c.findCards q).length > specEffectiveLimit limit)) := by
  have key : ∀ ids : List Nat,
      (ids.take (specEffectiveLimit limit)).length = min ids.length (specEffectiveLimit limit) :=
    fun ids => by rw [List.length_take, Nat.min_comm]
  constructor
  · have hfn : find_notes c (some q) limit = (Except.ok
        { query := q
          total_found := (c.findNotes q).length
          returned_count := ((c.findNotes q).take (specEffectiveLimit limit)).length
          note_ids := (c.findNotes q).take (specEffectiveLimit limit)
          truncated := decide ((c.findNotes q).length > specEffectiveLimit limit) },
        [SvcCall.findNotes q]) := by
      simp only [find_notes, jsString, effLimit_eq, hq, Bool.false_eq_true, if_false]
    exact ⟨_, hfn, rfl, rfl, key _, rfl⟩
  · have hfc : find_cards_advanced c (some q) limit = (Except.ok
        { query := q
          total_found := (c.findCards q).length
          returned_count := ((c.findCards q).take (specEffectiveLimit limit)).length
          card_ids := (c.findCards q).take (specEffectiveLimit limit)
          truncated := decide ((c.findCards q).length > specEffectiveLimit limit) },
        [SvcCall.findCards q]) := by
      simp only [find_cards_advanced, jsString, effLimit_eq, hq, Bool.false_eq_true, if_false]
    exact ⟨_, hfc, rfl, rfl, key _, rfl⟩

/-- C3 witness: the spec scenario, limit 10 against 15 matching cards. -/
theorem C3_limit_clamp_amended_witness :
    ∃ out, find_cards_advanced svc15 (some "deck:Japanese prop:ease<2.0") (some 10) =
        (Except.ok out, [SvcCall.findCards "deck:Japanese prop:ease<2.0"]) ∧
      out.total_found = (svc15.findCards "deck:Japanese prop:ease<2.0").length ∧
      out.card_ids = (svc15.findCards "deck:Japanese prop:ease<2.0").take
        (specEffectiveLimit (some 10)) ∧
      out.returned_count = min ((svc15.findCards "deck:Japanese prop:ease<2.0").length)
        (specEffectiveLimit (some 10)) ∧
      out.truncated = decide ((svc15.findCards "deck:Japanese prop:ease<2.0").length >
        specEffectiveLimit (some 10)) :=
  (C3_limit_clamp_amended svc15 "deck:Japanese prop:ease<2.0" (some 10) (by decide)).2

/-! ## C6: the ease-factor range validation -/

/-- C6 counterexample: a supplied singular ease factor of 0 lies below
1300, but being falsy it is reported with the missing-argument error, not
with a validation error referencing the 1300-4000 range (still with zero
service calls). -/
theorem C6_ease_validation_counterexample :
    set_card_ease_factors svc0 none (some 1) none (some 0) =
      (Except.error easeMissingMsg, []) ∧
    easeMissingMsg ≠ easeRangeMsg 0 :=
  ⟨rfl, by decide⟩

/-- C6 (amended): once the card ids and the ease factors normalise (plural
array, or nonzero singular), any normalised factor below 1300 or above 4000
aborts with the range-referencing validation error for the first offender
and zero service calls; the setEaseFactors call is reached only when every
normalised factor lies within 1300-4000. -/
theorem C6_ease_validation_amended (c : AnkiClient) (cardIds : Option (List Nat))
    (cardId : Option Nat) (easeFactors : Option (List Int)) (easeFactor : Option Int)
    (ids : List Nat) (eases : List Int)
    (h1 : toIdList cardIds cardId cardIdsMissingMsg = Except.ok ids)
    (h2 : ids ≠ [])
    (h3 : easeNorm ids.length easeFactors easeFactor = Except.ok eases) :
    (∀ e, eases.find? (fun x => decide (x < 1300) || decide (x > 4000)) = some e →
      set_card_ease_factors c cardIds cardId easeFactors easeFactor =
        (Except.error (easeRangeMsg e), [])) ∧
    (eases.find? (fun x => decide (x < 1300) || decide (x > 4000)) = none →
      (set_card_ease_factors c cardIds cardId easeFactors easeFactor).2 =
        [SvcCall.setEaseFactors ids eases] ∧
      ∀ x ∈ eases, 1300 ≤ x ∧ x ≤ 4000) := by
  have hemp := isEmpty_false_of_ne_nil h2
  constructor
  · intro e he
    simp [set_card_ease_factors, h1, hemp, h3, he]
  · intro hn
    constructor
    · simp [set_card_ease_factors, h1, hemp, h3, hn]
    · intro x hx
      have hx2 := List.find?_eq_none.mp hn x hx
      simp only [Bool.or_eq_true, decide_eq_true_eq, not_or] at hx2
      omega

/-- C6 witness: the spec scenario easeFactor 5000 on one card yields the
range-referencing validation error with zero service calls. -/
theorem C6_ease_validation_amended_witness :
    set_card_ease_factors svc0 none (some 1) none (some 5000) =
      (Except.error (easeRangeMsg 5000), []) := by
  have h := C6_ease_validation_amended svc0 none (some 1) none (some 5000) [1] [5000]
    rfl (by decide) rfl
  exact h.1 5000 rfl

/-! ## C7: the resource resolver -/

theorem insByDue_perm (x : Card) (l : List Card) : (insByDue x l).Perm (x :: l) := by
  induction l with
  | nil => exact List.Perm.refl _
  | cons y ys ih =>
    by_cases h : x.due ≤ y.due
    · simp only [insByDue, if_pos h]
      exact List.Perm.refl _
    · simp only [insByDue, if_neg h]
      exact (ih.cons y).trans (List.Perm.swap x y ys)

theorem sortByDue_perm (l : List Card) : (sortByDue l).Perm l := by
  induction l with
  | nil => exact List.Perm.refl _
  | cons x xs ih => exact (insByDue_perm x (sortByDue xs)).trans (ih.cons x)

theorem mem_insByDue {z x : Card} {l : List Card} (h : z ∈ insByDue x l) :
    z = x ∨ z ∈ l := by
  have := (insByDue_perm x l).mem_iff.mp h
  exact List.mem_cons.mp this

theorem insByDue_pairwise {x : Card} {l : List Card}
    (h : l.Pairwise (fun a b => a.due ≤ b.due)) :
    (insByDue x l).Pairwise (fun a b => a.due ≤ b.due) := by
  induction l with
  | nil => simp [insByDue]
  | cons y ys ih =>
    rw [List.pairwise_cons] at h
    obtain ⟨hy, hys⟩ := h
    by_cases hc : x.due ≤ y.due
    · simp only [insByDue, if_pos hc]
      rw [List.pairwise_cons]
      refine ⟨?_, ?_⟩
      · intro z hz
        rcases List.mem_cons.mp hz with rfl | hz
        · exact hc
        · exact le_trans hc (hy z hz)
      · rw [List.pairwise_cons]
        exact ⟨hy, hys⟩
    · simp only [insByDue, if_neg hc]
      rw [List.pairwise_cons]
      refine ⟨?_, ih hys⟩
      intro z hz
      rcases mem_insByDue hz with rfl | hz
      · omega
      · exact hy z hz

theorem sortByDue_pairwise (l : List Card) :
    (sortByDue l).Pairwise (fun a b => a.due ≤ b.due) := by
  induction l with
  | nil => simp [sortByDue]
  | cons x xs ih => exact insByDue_pairwise ih

/-- C7 counterexample: /foobar is the pathname the URL constructor
produces for the unknown address anki://search/foobar; the read handler
accepts it and serves it (here an empty result) instead of failing with an
invalid-resource error, so the resolver does not reject addresses outside
the three advertised ones. -/
theorem C7_resource_counterexample :
    (readResource svc0 (some "/foobar")).1 = Except.ok [] := rfl

/-- C7 (amended): the read handler fails with no service calls exactly when
the URL constructor throws on the address (the TypeError propagates) or
when the parsed pathname's last slash-separated segment is empty (the
invalid-URI error; in particular the authority-only address anki://search,
whose pathname is empty, is rejected); for every other address, known or
unknown, including the three advertised ones, it translates the segment,
fetches the matching cards and returns them sanitized and in ascending due
order. -/
theorem C7_resource_contract_amended (c : AnkiClient) (p : String) :
    readResource c none = (Except.error "TypeError: Invalid URL", []) ∧
    (((splitCh '/' p.data).getLastD []).isEmpty = true →
      readResource c (some p) = (Except.error "Invalid resource URI", [])) ∧
    (((splitCh '/' p.data).getLastD []).isEmpty = false →
      ∃ cards, (readResource c (some p)).1 = Except.ok cards ∧
        cards.Pairwise (fun a b => a.due ≤ b.due) ∧
        cards.Perm ((c.cardsInfo (c.findCards (formatQuery
          (String.mk ((splitCh '/' p.data).getLastD []))))).map mkCleanCard)) := by
  refine ⟨rfl, ?_, ?_⟩
  · intro h
    have hnil : (splitCh '/' p.data).getLastD [] = [] := by
      cases hcase : (splitCh '/' p.data).getLastD [] with
      | nil => rfl
      | cons a as => rw [hcase] at h; exact absurd h (by simp)
    rw [List.getLastD_eq_getLast?] at hnil
    simp [readResource, hnil]
  · intro h
    have hne2 : (splitCh '/' p.data).getLastD [] ≠ [] := by
      intro he
      rw [he] at h
      exact absurd h (by simp)
    rw [List.getLastD_eq_getLast?] at hne2
    refine ⟨sortByDue ((c.cardsInfo (c.findCards (formatQuery
      (String.mk ((splitCh '/' p.data).getLastD []))))).map mkCleanCard), ?_, ?_, ?_⟩
    · simp [readResource, findCardsAndOrder, hne2]
    · exact sortByDue_pairwise _
    · exact sortByDue_perm _

/-- C7 witness: the empty pathname of the authority-only address
anki://search is rejected with the invalid-URI error, and /deckcurrent,
the pathname of the advertised address anki://search/deckcurrent, is
served sorted and sanitized on a service with two cards out of due
order. -/
theorem C7_resource_contract_amended_witness :
    ((((splitCh '/' ("" : String).data).getLastD []).isEmpty = true) ∧
      readResource svcW (some "") = (Except.error "Invalid resource URI", [])) ∧
    ((((splitCh '/' ("/deckcurrent" : String).data).getLastD []).isEmpty = false) ∧
      ∃ cards, (readResource svcW (some "/deckcurrent")).1 = Except.ok cards ∧
        cards.Pairwise (fun a b => a.due ≤ b.due) ∧
        cards.Perm ((svcW.cardsInfo (svcW.findCards (formatQuery
          (String.mk ((splitCh '/' ("/deckcurrent" : String).data).getLastD
            []))))).map mkCleanCard)) :=
  ⟨⟨by decide, (C7_resource_contract_amended svcW "").2.1 (by decide)⟩,
   ⟨by decide, (C7_resource_contract_amended svcW "/deckcurrent").2.2 (by decide)⟩⟩

/-! ## C8: per-item results of update_note_fields -/

theorem countP_bnot {α : Type} (p : α → Bool) (l : List α) :
    l.countP p + l.countP (fun a => !(p a)) = l.length := by
  induction l with
  | nil => rfl
  | cons a as ih =>
    by_cases h : p a <;>
      simp [List.countP_cons, h] <;> omega

/-- C8: update_note_fields over a plural id list and nonempty fields never
raises a top-level error: it performs one update call per note, gives each
note a per-item entry whose success flag mirrors the service outcome (with
the embedded error message on failure), and reports aggregate success and
failure counts summing to the total. -/
theorem C8_update_note_fields_batch (c : AnkiClient) (ids : List Nat)
    (fields : List (String × String)) (hf : fields ≠ []) :
    ∃ out, update_note_fields c (some ids) none (some fields) =
        (Except.ok out, ids.map (fun nid => SvcCall.updateNoteFields nid)) ∧
      out.total_notes = ids.length ∧
      out.results.length = ids.length ∧
      (∀ r ∈ out.results, r.success = (c.updateNoteFields r.note_id fields).isOk ∧
        (r.success = false → ∃ msg, c.updateNoteFields r.note_id fields = Except.error msg ∧
          r.error = some msg)) ∧
      out.successful_updates = ids.countP (fun nid => (c.updateNoteFields nid fields).isOk) ∧
      out.failed_updates = ids.countP (fun nid => !(c.updateNoteFields nid fields).isOk) ∧
      out.successful_updates + out.failed_updates = out.total_notes := by
  have hfe : fields.isEmpty = false := isEmpty_false_of_ne_nil hf
  have hcount : ((ids.map (fun nid =>
      match c.updateNoteFields nid fields with
      | Except.ok _ => { note_id := nid, success := true, error := none : UNFItem }
      | Except.error err =>
        { note_id := nid, success := false, error := some err : UNFItem })).filter
        (fun r => r.success)).length =
      ids.countP (fun nid => (c.updateNoteFields nid fields).isOk) := by
    rw [← List.countP_eq_length_filter, List.countP_map]
    apply List.countP_congr
    intro nid _
    cases h : c.updateNoteFields nid fields <;>
      simp [h, Except.isOk, Except.toBool, Function.comp]
  have heq : update_note_fields c (some ids) none (some fields) = (Except.ok
      { total_notes := ids.length
        successful_updates := ((ids.map (fun nid =>
          match c.updateNoteFields nid fields with
          | Except.ok _ => { note_id := nid, success := true, error := none : UNFItem }
          | Except.error err =>
            { note_id := nid, success := false, error := some err : UNFItem })).filter
            (fun r => r.success)).length
        failed_updates := (ids.map (fun nid =>
          match c.updateNoteFields nid fields with
          | Except.ok _ => { note_id := nid, success := true, error := none : UNFItem }
          | Except.error err =>
            { note_id := nid, success := false, error := some err : UNFItem })).length -
          ((ids.map (fun nid =>
          match c.updateNoteFields nid fields with
          | Except.ok _ => { note_id := nid, success := true, error := none : UNFItem }
          | Except.error err =>
            { note_id := nid, success := false, error := some err : UNFItem })).filter
            (fun r => r.success)).length
        updated_fields := fields.map (fun kv => kv.1)
        results := ids.map (fun nid =>
          match c.updateNoteFields nid fields with
          | Except.ok _ => { note_id := nid, success := true, error := none : UNFItem }
          | Except.error err =>
            { note_id := nid, success := false, error := some err : UNFItem }) },
      ids.map (fun nid => SvcCall.updateNoteFields nid)) := by
    simp only [update_note_fields, toIdList, hfe, Bool.false_eq_true, if_false]
  refine ⟨_, heq, rfl, by simp, ?_, hcount, ?_, ?_⟩
  · intro r hr
    obtain ⟨nid, _, hre⟩ := List.mem_map.mp hr
    cases h : c.updateNoteFields nid fields <;> rw [h] at hre <;> rw [← hre] <;>
      simp [h, Except.isOk, Except.toBool]
  · rw [hcount]
    simp only [List.length_map]
    have hsum := countP_bnot (fun nid => (c.updateNoteFields nid fields).isOk) ids
    omega
  · rw [hcount]
    simp only [List.length_map]
    have hsum := countP_bnot (fun nid => (c.updateNoteFields nid fields).isOk) ids
    have hle := List.countP_le_length
      (p := fun nid => (c.updateNoteFields nid fields).isOk) (l := ids)
    omega

/-- C8 witness: the spec scenario, two notes with the second failing
upstream. -/
theorem C8_update_note_fields_batch_witness :
    ∃ out, update_note_fields svcFail2 (some [1, 2]) none (some [("Front", "x")]) =
        (Except.ok out, [1, 2].map (fun nid => SvcCall.updateNoteFields nid)) ∧
      out.total_notes = [1, 2].length ∧
      out.results.length = [1, 2].length ∧
      (∀ r ∈ out.results,
        r.success = (svcFail2.updateNoteFields r.note_id [("Front", "x")]).isOk ∧
        (r.success = false → ∃ msg,
          svcFail2.updateNoteFields r.note_id [("Front", "x")] = Except.error msg ∧
          r.error = some msg)) ∧
      out.successful_updates =
        [1, 2].countP (fun nid => (svcFail2.updateNoteFields nid [("Front", "x")]).isOk) ∧
      out.failed_updates =
        [1, 2].countP (fun nid => !(svcFail2.updateNoteFields nid [("Front", "x")]).isOk) ∧
      out.successful_updates + out.failed_updates = out.total_notes :=
  C8_update_note_fields_batch svcFail2 [1, 2] [("Front", "x")] (by decide)
